import Mathlib

set_option autoImplicit false

namespace FocusForge

/-! # Shallow embedding of the focus-forge backend cache / aggregation core

Embeds `src/middleware/cache.ts`, the read controllers of
`src/controllers/trackerController.ts`, and the route wiring of
`src/routes/trackerRoutes.ts`.  The aggregation service
(`trackerService`) is not part of the sources; where a claim depends on
it, the definition is modelled from the spec and marked as such. -/

/-- A response payload envelope `{success, error?, data}`.  The `data`
object is abstracted to its `userId` field (the only field the cache
layer inspects, via `data.data?.userId`) plus an opaque `body` standing
for the rest of the JSON object. -/
structure Payload where
  success : Bool
  error : Option String
  dataUserId : Option String
  body : String
  deriving DecidableEq

/-- JavaScript `JSON.stringify` / `JSON.parse` are external runtime primitives; they
are modelled as an injective wrapper so that the stored string determines
the payload exactly, which is all the cache layer relies on. -/
structure JsonStr where
  raw : Payload
  deriving DecidableEq

def stringifyJson (p : Payload) : JsonStr := ⟨p⟩

def parseJson (s : JsonStr) : Payload := s.raw

/-- An Express request as seen by the embedded middleware and
controllers: the method, `req.route.path` (Express exposes the
registered route pattern, e.g. `/users/:userId/daily-totals/:period`,
to route-level middleware, not the concrete URL), the two path
parameters the embedded code reads, and the query string as an ordered
list of name/value pairs. -/
structure Req where
  method : String
  routePath : String
  paramsUserId : Option String
  paramsPeriod : Option String
  query : List (String × String)
  deriving DecidableEq

/-- First query-string binding for a name (`req.query.<name>`). -/
def lookupQuery (q : List (String × String)) (name : String) : Option String :=
  (q.find? (fun kv => kv.1 = name)).map (fun kv => kv.2)

/-- JavaScript truthiness on an optional string: `undefined` and `""`
are falsy. -/
def truthy : Option String → Option String
  | none => none
  | some s => if s = "" then none else some s

/-- JavaScript `a || b` on optional strings. -/
def jsOr (a b : Option String) : Option String :=
  match truthy a with
  | some s => some s
  | none => truthy b

/-- Template-literal rendering of a possibly-undefined value
(JavaScript prints `undefined`). -/
def showOpt : Option String → String
  | none => "undefined"
  | some s => s

/-- Cache TTL in seconds (5 minutes), `CACHE_TTL` in `cache.ts`. -/
def CACHE_TTL : Nat := 5 * 60

/-- The function `generateCacheKey` from `src/middleware/cache.ts`:
`userId` from path then query, then the optional `period`, `trackerId`
and `startDate`/`endDate` components, all read from `req.query`. -/
def generateCacheKey (req : Req) : String :=
  let userId := jsOr req.paramsUserId (lookupQuery req.query "userId")
  let period := truthy (lookupQuery req.query "period")
  let trackerId := truthy (lookupQuery req.query "trackerId")
  let startDate := truthy (lookupQuery req.query "startDate")
  let endDate := truthy (lookupQuery req.query "endDate")
  let key := "cache:" ++ req.routePath ++ ":" ++ showOpt userId
  let key := match period with
    | some p => key ++ ":" ++ p
    | none => key
  let key := match trackerId with
    | some t => key ++ ":tracker:" ++ t
    | none => key
  match startDate, endDate with
  | some s, some e => key ++ ":" ++ s ++ ":" ++ e
  | _, _ => key

/-- One entry of the external key-value store: key, serialized payload,
remaining TTL in seconds. -/
structure Entry where
  key : String
  value : JsonStr
  ttl : Nat
  deriving DecidableEq

/-- The external cache store state. -/
abbrev Cache := List Entry

/-- Redis `get`, as in `redisClient.get`. -/
def cacheGet (c : Cache) (k : String) : Option JsonStr :=
  (c.find? (fun e => e.key = k)).map Entry.value

/-- Redis `setex` (`redisClient.setex`): stores the value under the key with a fresh TTL,
replacing any previous entry for that key. -/
def cacheSetex (c : Cache) (k : String) (ttl : Nat) (v : JsonStr) : Cache :=
  Entry.mk k v ttl :: c.filter (fun e => ¬ e.key = k)

/-- Redis glob-style matching (`*` any sequence, `?` one character), as
used by `redisClient.keys(pattern)`.  Structural recursion on a fuel
bound so the matcher evaluates in the kernel; every recursive call
shrinks `ps.length + s.length`, so any fuel above that bound computes
the match. -/
def globAux : Nat → List Char → List Char → Bool
  | 0, _, _ => false
  | _ + 1, [], s => s.isEmpty
  | n + 1, p :: ps, [] => if p = '*' then globAux n ps [] else false
  | n + 1, p :: ps, c :: cs =>
    if p = '*' then (globAux n ps (c :: cs) || globAux n (p :: ps) cs)
    else ((p == '?' || p == c) && globAux n ps cs)

def globMatch (ps s : List Char) : Bool :=
  globAux (ps.length + s.length + 1) ps s

def globMatchStr (pat s : String) : Bool :=
  globMatch pat.toList s.toList

/-- The glob pattern `invalidateUserCache` builds when no explicit
pattern is passed: `cache:*:${userId}*`. -/
def userPattern (userId : String) : String :=
  "cache:*:" ++ userId ++ "*"

/-- The helper `invalidateUserCache` (success path): `keys(pattern)` followed by
`del(...keys)` removes exactly the entries whose key matches the glob
pattern.  A store error is caught and logged, leaving the store
unchanged. -/
def invalidateUserCache (userId : String) (c : Cache) : Cache :=
  c.filter (fun e => ! globMatchStr (userPattern userId) e.key)

/-- One interaction with the cache store during a request. -/
inductive CacheOp where
  | read (key : String)
  | write (key : String) (ttl : Nat) (value : JsonStr)
  deriving DecidableEq

/-- What a controller produced: HTTP status, payload passed to
`res.json`, and whether the (external) `trackerService` aggregation was
invoked. -/
structure CtrlResult where
  status : Nat
  payload : Payload
  serviceCalled : Bool
  deriving DecidableEq

/-- Outcome of a full GET request through `cacheMiddleware` and a
controller: the response, the store operations performed, the resulting
store state, whether the controller ran, and whether the aggregation
service was invoked. -/
structure RunResult where
  status : Nat
  payload : Payload
  ops : List CacheOp
  cache : Cache
  handlerRan : Bool
  serviceCalled : Bool
  deriving DecidableEq

/-- The middleware `cacheMiddleware` composed with a controller, from
`src/middleware/cache.ts`.  `redisOk = false` models the store being
unreachable: the `get` rejects, the `catch` logs and calls `next()`
without overriding `res.json`, so the controller runs and nothing is
cached.  On a hit the cached string is parsed and sent; the controller
is never invoked.  On a miss the overridden `res.json` stores the
payload with `setex` only when `data.success` is truthy. -/
def runGet (redisOk : Bool) (c : Cache) (req : Req) (handler : Req → CtrlResult) :
    RunResult :=
  if req.method ≠ "GET" then
    ⟨(handler req).status, (handler req).payload, [], c, true, (handler req).serviceCalled⟩
  else if redisOk = false then
    ⟨(handler req).status, (handler req).payload, [CacheOp.read (generateCacheKey req)],
      c, true, (handler req).serviceCalled⟩
  else
    match cacheGet c (generateCacheKey req) with
    | some v =>
      ⟨200, parseJson v, [CacheOp.read (generateCacheKey req)], c, false, false⟩
    | none =>
      if (handler req).payload.success then
        ⟨(handler req).status, (handler req).payload,
          [CacheOp.read (generateCacheKey req),
            CacheOp.write (generateCacheKey req) CACHE_TTL (stringifyJson (handler req).payload)],
          cacheSetex c (generateCacheKey req) CACHE_TTL (stringifyJson (handler req).payload),
          true, (handler req).serviceCalled⟩
      else
        ⟨(handler req).status, (handler req).payload, [CacheOp.read (generateCacheKey req)],
          c, true, (handler req).serviceCalled⟩

/-- The middleware `invalidateAllCacheMiddleware` at response time, from
`src/middleware/cache.ts`: for a successful POST/PUT it resolves the
userId as `req.params.userId || req.query.userId || data.data?.userId`
and invalidates that user's entries; otherwise the store is untouched.
Returns the new store state and the userId it resolved (if any). -/
def runMutation (c : Cache) (req : Req) (payload : Payload) : Cache × Option String :=
  if (req.method == "POST" || req.method == "PUT") && payload.success then
    match jsOr (jsOr req.paramsUserId (lookupQuery req.query "userId")) payload.dataUserId with
    | some u => (invalidateUserCache u c, some u)
    | none => (c, none)
  else (c, none)

/-- The list of accepted period names, from
`["week", "month", "year"].includes(period)` in the controller. -/
def periodList : List String := ["week", "month", "year"]

/-- The abstract aggregation service: given `userId`, the period or
range arguments, and the optional `trackerId`, it returns the result
envelope.  `trackerService` is not part of the sources, so it stays a
parameter of the controllers. -/
abbrev PeriodService := Option String → String → Option String → Payload

abbrev RangeService := Option String → Int → Int → Option String → Payload

/-- Controller `trackerController.getDailyTotalsForPeriod`: validates the period
path parameter against `periodList` before calling the service; an
invalid period is answered 400 with the fixed error envelope and the
service is never invoked.  A successful service result is sent with
status 200, a failed one with 400. -/
def getDailyTotalsForPeriodCtrl (service : PeriodService) (req : Req) : CtrlResult :=
  if showOpt req.paramsPeriod ∈ periodList then
    if (service req.paramsUserId (showOpt req.paramsPeriod)
        (lookupQuery req.query "trackerId")).success then
      ⟨200, service req.paramsUserId (showOpt req.paramsPeriod)
        (lookupQuery req.query "trackerId"), true⟩
    else
      ⟨400, service req.paramsUserId (showOpt req.paramsPeriod)
        (lookupQuery req.query "trackerId"), true⟩
  else
    ⟨400, ⟨false, some "Period must be one of: week, month, year", none, ""⟩, false⟩

/-- Controller `trackerController.getTotalHoursForPeriod`: identical validation
shape to `getDailyTotalsForPeriodCtrl`. -/
def getTotalHoursForPeriodCtrl (service : PeriodService) (req : Req) : CtrlResult :=
  if showOpt req.paramsPeriod ∈ periodList then
    if (service req.paramsUserId (showOpt req.paramsPeriod)
        (lookupQuery req.query "trackerId")).success then
      ⟨200, service req.paramsUserId (showOpt req.paramsPeriod)
        (lookupQuery req.query "trackerId"), true⟩
    else
      ⟨400, service req.paramsUserId (showOpt req.paramsPeriod)
        (lookupQuery req.query "trackerId"), true⟩
  else
    ⟨400, ⟨false, some "Period must be one of: week, month, year", none, ""⟩, false⟩

/-- Controller `trackerController.getDailyTotals` (custom date range): requires
truthy `startDate` and `endDate` query parameters, then parses both
with JavaScript `new Date` (an external runtime primitive, supplied
here as the `parseDate` parameter; `none` models `NaN`).  Validation
failures are answered 400 without invoking the service. -/
def getDailyTotalsCtrl (parseDate : String → Option Int) (service : RangeService)
    (req : Req) : CtrlResult :=
  match truthy (lookupQuery req.query "startDate"),
      truthy (lookupQuery req.query "endDate") with
  | some s, some e =>
    match parseDate s, parseDate e with
    | some sd, some ed =>
      if (service req.paramsUserId sd ed (lookupQuery req.query "trackerId")).success then
        ⟨200, service req.paramsUserId sd ed (lookupQuery req.query "trackerId"), true⟩
      else
        ⟨400, service req.paramsUserId sd ed (lookupQuery req.query "trackerId"), true⟩
    | _, _ => ⟨400, ⟨false, some "Invalid date format. Use YYYY-MM-DD", none, ""⟩, false⟩
  | _, _ =>
    ⟨400, ⟨false, some "startDate and endDate query parameters are required", none, ""⟩, false⟩

/-- The route pattern of the period-based daily-totals endpoint, as
registered in `src/routes/trackerRoutes.ts` and exposed to the cache
middleware through `req.route.path`. -/
def periodRoutePath : String := "/users/:userId/daily-totals/:period"

/-- A work session, already restricted to the requested (user, tracker)
scope; instants are minutes since the UTC epoch, `stopMin = none` while
the session is active. -/
structure Session where
  startMin : Nat
  stopMin : Option Nat
  deriving DecidableEq

/-- Modelled from the spec: active sessions (no end instant) are
clipped using the request's evaluation instant `now` as their implicit
end (`trackerService` is not under the sources). -/
def sessionEnd (now : Nat) (s : Session) : Nat :=
  s.stopMin.getD now

def minutesPerDay : Nat := 1440

/-- Modelled from the spec: the portion of a session's duration that
falls within UTC calendar day `day` (day index since the epoch) —
the session interval clipped to the day's boundaries. -/
def overlapMinutes (now day : Nat) (s : Session) : Nat :=
  min (sessionEnd now s) ((day + 1) * minutesPerDay) - max s.startMin (day * minutesPerDay)

/-- Modelled from the spec: whether a session's interval overlaps day
`day`. -/
def overlapsDay (now day : Nat) (s : Session) : Bool :=
  decide (max s.startMin (day * minutesPerDay) < min (sessionEnd now s) ((day + 1) * minutesPerDay))

/-- One calendar-day bucket of the aggregation output. -/
structure DailyBucket where
  date : Nat
  totalMinutes : Nat
  sessionCount : Nat
  deriving DecidableEq

/-- Modelled from the spec: the bucket of day `day` — `totalMinutes`
sums the clipped portions of the sessions overlapping the day,
`sessionCount` counts each overlapping session once. -/
def bucketFor (sessions : List Session) (now day : Nat) : DailyBucket :=
  ⟨day, ((sessions.filter (overlapsDay now day)).map (overlapMinutes now day)).sum,
    (sessions.filter (overlapsDay now day)).length⟩

/-- Modelled from the spec: `aggregate(scope, range)` — one bucket per
calendar day of the inclusive range `[startDay, endDay]`, ascending
(`trackerService.getDailyTotalsForUser` is not under the sources). -/
def aggregate (sessions : List Session) (now startDay endDay : Nat) : List DailyBucket :=
  (List.range (endDay - startDay + 1)).map (fun i => bucketFor sessions now (startDay + i))

/-- Days since 1970-01-01 of the proleptic Gregorian date y-m-d
(the standard civil-from-date computation); used to state the calendar
instances of period resolution. -/
def daysFromCivil (y m d : Int) : Int :=
  let y2 := if m ≤ 2 then y - 1 else y
  let era := (if 0 ≤ y2 then y2 else y2 - 399) / 400
  let yoe := y2 - era * 400
  let mp := (m + 9) % 12
  let doy := (153 * mp + 2) / 5 + d - 1
  let doe := yoe * 365 + yoe / 4 - yoe / 100 + doy
  era * 146097 + doe - 719468

/-- Modelled from the spec: the Period Resolver
`resolve(period, today) → DateRange` — `week`, `month`, `year` are the
7, 30 and 365 calendar days ending at `today` inclusive; anything else
is an `InvalidPeriod` validation failure (the resolver lives in
`trackerService`, which is not under the sources). -/
def resolvePeriod (period : String) (today : Int) : Except String (Int × Int) :=
  if period = "week" then .ok (today - 6, today)
  else if period = "month" then .ok (today - 29, today)
  else if period = "year" then .ok (today - 364, today)
  else .error "InvalidPeriod"

/-- A service stub whose payload stands for the aggregated week data. -/
def weekPayload : Payload := ⟨true, none, none, "weekData"⟩

def serviceStub : PeriodService := fun _ _ _ => weekPayload

/-- Request `GET /users/u1/daily-totals/week` with no query string. -/
def reqDailyWeek : Req := ⟨"GET", periodRoutePath, some "u1", some "week", []⟩

/-- Request `GET /users/u1/daily-totals/year` with no query string. -/
def reqDailyYear : Req := ⟨"GET", periodRoutePath, some "u1", some "year", []⟩

/-- Request `GET /users/u1/daily-totals/foo` — an invalid period. -/
def reqDailyFoo : Req := ⟨"GET", periodRoutePath, some "u1", some "foo", []⟩

/-- The store state after a cold `GET /users/u1/daily-totals/week`
request has been served and cached. -/
def warmCache : Cache :=
  (runGet true [] reqDailyWeek (getDailyTotalsForPeriodCtrl serviceStub)).cache

/-- Whether a string is free of the glob metacharacters `*` and `?`
(true of the identifiers the application uses). -/
def noGlobMeta (s : String) : Bool :=
  s.toList.all (fun c => !(c == '*') && !(c == '?'))

/-- The validation guard of `getDailyTotals`: the request is invalid
when `startDate` or `endDate` is missing/empty or either fails to
parse. -/
def rangeInvalid (parseDate : String → Option Int) (q : List (String × String)) : Bool :=
  match truthy (lookupQuery q "startDate"), truthy (lookupQuery q "endDate") with
  | some s, some e => (parseDate s).isNone || (parseDate e).isNone
  | _, _ => true

/-- A cache entry cached for user `u10`. -/
def entryU10 : Entry :=
  ⟨"cache:/users/:userId/daily-totals/:period:u10", ⟨⟨true, none, none, "u10data"⟩⟩, 300⟩

/-- A store holding one entry for user `u1` and one for user `u10`. -/
def cacheTwoUsers : Cache :=
  [⟨"cache:/users/:userId/daily-totals/:period:u1", ⟨weekPayload⟩, 300⟩, entryU10]

/-- Request `POST /trackers` (tracker creation): no userId in path or query. -/
def reqCreateTracker : Req := ⟨"POST", "/trackers", none, none, []⟩

/-- A successful creation response whose `data.userId` is `u1`. -/
def payloadCreatedU1 : Payload := ⟨true, none, some "u1", "created"⟩

end FocusForge

namespace FocusForge

/-! ## Theorems -/

theorem globAux_stable (n : Nat) : ∀ (m : Nat) (ps s : List Char),
    ps.length + s.length < n → ps.length + s.length < m →
    globAux n ps s = globAux m ps s := by
  induction n with
  | zero => intro m ps s h _; omega
  | succ n ih =>
    intro m ps s hn hm
    match m, hm with
    | m + 1, hm =>
      match ps, s with
      | [], s => rfl
      | p :: ps, [] =>
        simp only [globAux]
        by_cases hp : p = '*'
        · simp only [if_pos hp]
          exact ih m ps []
            (by simp only [List.length_cons, List.length_nil] at hn ⊢; omega)
            (by simp only [List.length_cons, List.length_nil] at hm ⊢; omega)
        · simp only [if_neg hp]
      | p :: ps, c :: cs =>
        simp only [globAux]
        by_cases hp : p = '*'
        · simp only [if_pos hp]
          rw [ih m ps (c :: cs)
              (by simp only [List.length_cons] at hn ⊢; omega)
              (by simp only [List.length_cons] at hm ⊢; omega),
            ih m (p :: ps) cs
              (by simp only [List.length_cons] at hn ⊢; omega)
              (by simp only [List.length_cons] at hm ⊢; omega)]
        · simp only [if_neg hp]
          rw [ih m ps cs
            (by simp only [List.length_cons] at hn ⊢; omega)
            (by simp only [List.length_cons] at hm ⊢; omega)]

theorem globAux_eq_globMatch (n : Nat) (ps s : List Char)
    (h : ps.length + s.length < n) : globAux n ps s = globMatch ps s :=
  globAux_stable n (ps.length + s.length + 1) ps s h (by omega)

theorem globMatch_nil (s : List Char) : globMatch [] s = s.isEmpty := rfl

theorem globMatch_cons_nil (p : Char) (ps : List Char) :
    globMatch (p :: ps) [] = if p = '*' then globMatch ps [] else false := by
  conv_lhs => simp only [globMatch, globAux]
  rw [globAux_eq_globMatch _ ps []
    (by simp only [List.length_cons, List.length_nil]; omega)]

theorem globMatch_cons_cons (p : Char) (ps : List Char) (c : Char) (cs : List Char) :
    globMatch (p :: ps) (c :: cs)
      = if p = '*' then (globMatch ps (c :: cs) || globMatch (p :: ps) cs)
        else ((p == '?' || p == c) && globMatch ps cs) := by
  conv_lhs => simp only [globMatch, globAux]
  rw [globAux_eq_globMatch _ ps (c :: cs)
      (by simp only [List.length_cons]; omega),
    globAux_eq_globMatch _ (p :: ps) cs
      (by simp only [List.length_cons]; omega),
    globAux_eq_globMatch _ ps cs
      (by simp only [List.length_cons]; omega)]

theorem globMatch_star_all (s : List Char) : globMatch ['*'] s = true := by
  induction s with
  | nil => rfl
  | cons c cs ih =>
    rw [globMatch_cons_cons]
    simp [globMatch_nil, ih]

theorem globMatch_star_append {ps : List Char} (s₁ : List Char) {s₂ : List Char}
    (h : globMatch ps s₂ = true) : globMatch ('*' :: ps) (s₁ ++ s₂) = true := by
  induction s₁ with
  | nil =>
    simp only [List.nil_append]
    cases s₂ with
    | nil => rw [globMatch_cons_nil]; simp [h]
    | cons c cs => rw [globMatch_cons_cons]; simp [h]
  | cons c cs ih =>
    rw [List.cons_append, globMatch_cons_cons]
    simp [ih]

theorem globMatch_lit_cons {p : Char} (hstar : p ≠ '*') (ps : List Char) (s : List Char)
    (h : globMatch ps s = true) : globMatch (p :: ps) (p :: s) = true := by
  rw [globMatch_cons_cons, if_neg hstar]
  simp [h]

theorem globMatch_lit_append (lit : List Char) (hmeta : ∀ c ∈ lit, c ≠ '*')
    (ps s : List Char) (h : globMatch ps s = true) :
    globMatch (lit ++ ps) (lit ++ s) = true := by
  induction lit with
  | nil => simpa using h
  | cons c cs ih =>
    rw [List.cons_append, List.cons_append]
    exact globMatch_lit_cons (hmeta c (by simp)) _ _
      (ih (fun x hx => hmeta x (by simp [hx])))

theorem string_toList_append (a b : String) : (a ++ b).toList = a.toList ++ b.toList := by
  simp [String.toList, String.data_append]

theorem userPattern_matches (u : String) (hu : noGlobMeta u = true) (route rest : String) :
    globMatchStr (userPattern u) ("cache:" ++ route ++ ":" ++ u ++ rest) = true := by
  have hstar : ∀ c ∈ u.toList, c ≠ '*' := by
    intro c hc
    have h := List.all_eq_true.mp hu c hc
    intro hcontra
    subst hcontra
    simp at h
  have hpat : (userPattern u).toList
      = "cache:".toList ++ ('*' :: ':' :: (u.toList ++ ['*'])) := by
    rw [userPattern, string_toList_append, string_toList_append]
    rfl
  have htgt : ("cache:" ++ route ++ ":" ++ u ++ rest).toList
      = "cache:".toList ++ (route.toList ++ (':' :: (u.toList ++ rest.toList))) := by
    rw [string_toList_append, string_toList_append, string_toList_append,
      string_toList_append]
    simp [List.append_assoc]
  rw [globMatchStr, hpat, htgt]
  apply globMatch_lit_append _ (by decide)
  apply globMatch_star_append
  apply globMatch_lit_cons (by decide)
  apply globMatch_lit_append _ hstar
  exact globMatch_star_all _

theorem truthy_ne_empty {a : Option String} {u : String} (h : truthy a = some u) :
    ¬ u = "" := by
  cases a with
  | none => simp [truthy] at h
  | some s =>
    by_cases hs : s = ""
    · simp [truthy, hs] at h
    · simp [truthy, hs] at h
      subst h
      exact hs

theorem truthy_of_ne {u : String} (h : ¬ u = "") : truthy (some u) = some u := by
  simp [truthy, h]

theorem jsOr_left {a : Option String} (b : Option String) {u : String}
    (h : truthy a = some u) : jsOr a b = some u := by
  simp [jsOr, h]

theorem jsOr_none {a : Option String} (b : Option String) (h : truthy a = none) :
    jsOr a b = truthy b := by
  simp [jsOr, h]

theorem truthy_jsOr (a b : Option String) : truthy (jsOr a b) = jsOr a b := by
  cases ha : truthy a with
  | some u => rw [jsOr_left b ha, truthy_of_ne (truthy_ne_empty ha)]
  | none =>
    rw [jsOr_none b ha]
    cases b with
    | none => rfl
    | some s =>
      by_cases hs : s = ""
      · simp [truthy, hs]
      · simp [truthy, hs]

theorem mem_invalidateUserCache {u : String} {c : Cache} {e : Entry} :
    e ∈ invalidateUserCache u c
      ↔ (e ∈ c ∧ globMatchStr (userPattern u) e.key = false) := by
  simp [invalidateUserCache, List.mem_filter]

theorem runMutation_resolved {c : Cache} {req : Req} {p : Payload} {u : String}
    (h : (runMutation c req p).2 = some u) :
    (runMutation c req p).1 = invalidateUserCache u c := by
  unfold runMutation at h ⊢
  by_cases hc : ((req.method == "POST" || req.method == "PUT") && p.success) = true
  · rw [if_pos hc] at h ⊢
    cases hj : jsOr (jsOr req.paramsUserId (lookupQuery req.query "userId")) p.dataUserId with
    | some w =>
      rw [hj] at h
      have h2 : w = u := Option.some.inj h
      subst h2
      rfl
    | none =>
      rw [hj] at h
      exact absurd (h : (none : Option String) = some u) (by simp)
  · rw [if_neg hc] at h
    exact absurd (h : (none : Option String) = some u) (by simp)

theorem runMutation_unresolved {c : Cache} {req : Req} {p : Payload}
    (h : (runMutation c req p).2 = none) : (runMutation c req p).1 = c := by
  unfold runMutation at h ⊢
  by_cases hc : ((req.method == "POST" || req.method == "PUT") && p.success) = true
  · rw [if_pos hc] at h ⊢
    cases hj : jsOr (jsOr req.paramsUserId (lookupQuery req.query "userId")) p.dataUserId with
    | some w =>
      rw [hj] at h
      exact absurd (h : some w = (none : Option String)) (by simp)
    | none => rfl
  · rw [if_neg hc]

/-- C1: the spec claims the derived key composes
`cache:<routeIdentity>:<userId>[:<period>]...` so that
`/daily-totals/week` and `/daily-totals/year` for the same user get
distinct keys.  Evaluating `generateCacheKey` at those two requests:
the route identity is the literal pattern
`/users/:userId/daily-totals/:period` and the period is read only from
the query string, so both requests derive the identical key. -/
theorem C1_period_key_collision :
    reqDailyWeek.paramsPeriod = some "week" ∧
    reqDailyYear.paramsPeriod = some "year" ∧
    generateCacheKey reqDailyWeek = generateCacheKey reqDailyYear ∧
    generateCacheKey reqDailyWeek = "cache:/users/:userId/daily-totals/:period:u1" := by
  decide

/-- C3 counterexample: invalidating user `u1` after a successful tracker
creation also deletes the entry cached for the distinct user `u10`,
because its key matches the glob pattern `cache:*:u1*`; the claim that
entries of every other user are left unchanged is false. -/
theorem C3_cross_user_deletion :
    entryU10 ∈ cacheTwoUsers ∧
    (runMutation cacheTwoUsers reqCreateTracker payloadCreatedU1).2 = some "u1" ∧
    (runMutation cacheTwoUsers reqCreateTracker payloadCreatedU1).1 = [] := by
  decide

/-- C3 (amended): after a successful mutating operation that resolves
user `u`, the surviving store is exactly the entries whose key does not
match the glob pattern `cache:*:<u>*`: every matching entry (which
includes every key the key deriver can build for `u`, third conjunct)
is deleted, and every non-matching entry is kept unchanged.  Entries of
a different user are removed too whenever their key matches the
pattern, e.g. when that user's id extends `u`. -/
theorem C3_user_scoped_invalidation (c : Cache) (req : Req) (p : Payload) (u : String)
    (h : (runMutation c req p).2 = some u) :
    (∀ e ∈ (runMutation c req p).1,
      e ∈ c ∧ globMatchStr (userPattern u) e.key = false) ∧
    (∀ e ∈ c, globMatchStr (userPattern u) e.key = false →
      e ∈ (runMutation c req p).1) ∧
    (∀ route rest : String, noGlobMeta u = true →
      globMatchStr (userPattern u) ("cache:" ++ route ++ ":" ++ u ++ rest) = true) := by
  rw [runMutation_resolved h]
  exact ⟨fun e he => mem_invalidateUserCache.mp he,
    fun e he hg => mem_invalidateUserCache.mpr ⟨he, hg⟩,
    fun route rest hu => userPattern_matches u hu route rest⟩

theorem C3_user_scoped_invalidation_witness :
    (runMutation cacheTwoUsers reqCreateTracker payloadCreatedU1).2 = some "u1" ∧
    globMatchStr (userPattern "u1")
      ("cache:" ++ periodRoutePath ++ ":" ++ "u1" ++ "") = true := by
  constructor
  · decide
  · exact (C3_user_scoped_invalidation cacheTwoUsers reqCreateTracker payloadCreatedU1
      "u1" (by decide)).2.2 periodRoutePath "" (by decide)

/-- C4: the invalidation coordinator acts only on POST/PUT responses
whose payload has `success` true (otherwise store and decision are
untouched); it resolves the user from the path parameter, then the
query parameter, then the result payload's `data.userId`, in that
order; a resolved user `u` deletes exactly the entries matching
`cache:*:<u>*`; an unresolved user performs no invalidation. -/
theorem C4_invalidation_coordinator (c : Cache) (req : Req) (p : Payload) :
    ((¬ (req.method = "POST" ∨ req.method = "PUT") ∨ p.success = false) →
      runMutation c req p = (c, none)) ∧
    ((req.method = "POST" ∨ req.method = "PUT") → p.success = true →
      ((∀ u, truthy req.paramsUserId = some u → (runMutation c req p).2 = some u) ∧
        (truthy req.paramsUserId = none →
          ∀ u, truthy (lookupQuery req.query "userId") = some u →
            (runMutation c req p).2 = some u) ∧
        (truthy req.paramsUserId = none →
          truthy (lookupQuery req.query "userId") = none →
          (runMutation c req p).2 = truthy p.dataUserId))) ∧
    (∀ u, (runMutation c req p).2 = some u →
      ∀ e : Entry, e ∈ (runMutation c req p).1
        ↔ (e ∈ c ∧ globMatchStr (userPattern u) e.key = false)) ∧
    ((runMutation c req p).2 = none → (runMutation c req p).1 = c) := by
  refine ⟨?_, ?_, ?_, ?_⟩
  · intro hneg
    have hcond : ((req.method == "POST" || req.method == "PUT") && p.success) = false := by
      rcases hneg with hno | hsf
      · push_neg at hno
        have h1 : (req.method == "POST") = false := by
          simp [hno.1]
        have h2 : (req.method == "PUT") = false := by
          simp [hno.2]
        simp [h1, h2]
      · simp [hsf]
    unfold runMutation
    rw [if_neg (by simp [hcond])]
  · intro hm hs
    have hcond : ((req.method == "POST" || req.method == "PUT") && p.success) = true := by
      rcases hm with h1 | h1 <;> simp [h1, hs]
    refine ⟨?_, ?_, ?_⟩
    · intro u hp
      have hJ : jsOr (jsOr req.paramsUserId (lookupQuery req.query "userId"))
          p.dataUserId = some u := by
        apply jsOr_left
        rw [jsOr_left _ hp]
        exact truthy_of_ne (truthy_ne_empty hp)
      unfold runMutation
      rw [if_pos hcond, hJ]
    · intro hp u hq
      have hJ : jsOr (jsOr req.paramsUserId (lookupQuery req.query "userId"))
          p.dataUserId = some u := by
        apply jsOr_left
        rw [jsOr_none _ hp, hq]
        exact truthy_of_ne (truthy_ne_empty hq)
      unfold runMutation
      rw [if_pos hcond, hJ]
    · intro hp hq
      have hnone : truthy (jsOr req.paramsUserId (lookupQuery req.query "userId")) = none := by
        rw [jsOr_none _ hp, hq]
        rfl
      have hJ := jsOr_none p.dataUserId hnone
      unfold runMutation
      rw [if_pos hcond, hJ]
      cases htd : truthy p.dataUserId with
      | some w => rfl
      | none => rfl
  · intro u h e
    rw [runMutation_resolved h]
    exact mem_invalidateUserCache
  · intro h
    exact runMutation_unresolved h

theorem runGet_not_get (ok : Bool) (c : Cache) (req : Req) (h : Req → CtrlResult)
    (hm : ¬ req.method = "GET") :
    runGet ok c req h
      = ⟨(h req).status, (h req).payload, [], c, true, (h req).serviceCalled⟩ := by
  unfold runGet
  rw [if_pos hm]

theorem runGet_down (c : Cache) (req : Req) (h : Req → CtrlResult)
    (hm : req.method = "GET") :
    runGet false c req h
      = ⟨(h req).status, (h req).payload, [CacheOp.read (generateCacheKey req)],
          c, true, (h req).serviceCalled⟩ := by
  unfold runGet
  rw [if_neg (by simp [hm]), if_pos rfl]

theorem runGet_hit {c : Cache} {req : Req} {v : JsonStr} (h : Req → CtrlResult)
    (hm : req.method = "GET") (hv : cacheGet c (generateCacheKey req) = some v) :
    runGet true c req h
      = ⟨200, parseJson v, [CacheOp.read (generateCacheKey req)], c, false, false⟩ := by
  unfold runGet
  rw [if_neg (by simp [hm]), if_neg (by simp), hv]

theorem runGet_miss_success {c : Cache} {req : Req} (h : Req → CtrlResult)
    (hm : req.method = "GET") (hv : cacheGet c (generateCacheKey req) = none)
    (hs : (h req).payload.success = true) :
    runGet true c req h
      = ⟨(h req).status, (h req).payload,
          [CacheOp.read (generateCacheKey req),
            CacheOp.write (generateCacheKey req) CACHE_TTL (stringifyJson (h req).payload)],
          cacheSetex c (generateCacheKey req) CACHE_TTL (stringifyJson (h req).payload),
          true, (h req).serviceCalled⟩ := by
  unfold runGet
  rw [if_neg (by simp [hm]), if_neg (by simp), hv, if_pos hs]

theorem runGet_miss_fail {c : Cache} {req : Req} (h : Req → CtrlResult)
    (hm : req.method = "GET") (hv : cacheGet c (generateCacheKey req) = none)
    (hs : (h req).payload.success = false) :
    runGet true c req h
      = ⟨(h req).status, (h req).payload, [CacheOp.read (generateCacheKey req)],
          c, true, (h req).serviceCalled⟩ := by
  unfold runGet
  rw [if_neg (by simp [hm]), if_neg (by simp), hv, if_neg (by simp [hs])]

/-- C5: a cache write happens, on the miss path, exactly when the
response payload's top-level `success` flag is true; and every cache
write the middleware ever performs uses the single fixed TTL
`CACHE_TTL = 300` seconds. -/
theorem C5_success_gated_write_fixed_ttl :
    (∀ (ok : Bool) (c : Cache) (req : Req) (h : Req → CtrlResult)
        (k : String) (t : Nat) (v : JsonStr),
      CacheOp.write k t v ∈ (runGet ok c req h).ops → t = CACHE_TTL ∧ CACHE_TTL = 300) ∧
    (∀ (c : Cache) (req : Req) (h : Req → CtrlResult),
      req.method = "GET" → cacheGet c (generateCacheKey req) = none →
      ((∃ v, CacheOp.write (generateCacheKey req) CACHE_TTL v ∈ (runGet true c req h).ops)
        ↔ (h req).payload.success = true)) := by
  constructor
  · intro ok c req h k t v hmem
    by_cases hm : req.method = "GET"
    · cases ok with
      | false =>
        rw [runGet_down c req h hm] at hmem
        simp at hmem
      | true =>
        cases hv : cacheGet c (generateCacheKey req) with
        | some w =>
          rw [runGet_hit h hm hv] at hmem
          simp at hmem
        | none =>
          by_cases hs : (h req).payload.success = true
          · rw [runGet_miss_success h hm hv hs] at hmem
            simp at hmem
            exact ⟨hmem.2.1, rfl⟩
          · rw [runGet_miss_fail h hm hv (by simpa using hs)] at hmem
            simp at hmem
    · rw [runGet_not_get ok c req h hm] at hmem
      simp at hmem
  · intro c req h hm hv
    constructor
    · rintro ⟨v, hvmem⟩
      by_cases hs : (h req).payload.success = true
      · exact hs
      · rw [runGet_miss_fail h hm hv (by simpa using hs)] at hvmem
        simp at hvmem
    · intro hs
      rw [runGet_miss_success h hm hv hs]
      exact ⟨stringifyJson (h req).payload, by simp⟩

theorem C5_success_gated_write_fixed_ttl_witness :
    ((∃ v, CacheOp.write (generateCacheKey reqDailyWeek) CACHE_TTL v
        ∈ (runGet true [] reqDailyWeek (getDailyTotalsForPeriodCtrl serviceStub)).ops)
      ↔ (getDailyTotalsForPeriodCtrl serviceStub reqDailyWeek).payload.success = true) ∧
    (CACHE_TTL = 300) := by
  constructor
  · exact C5_success_gated_write_fixed_ttl.2 [] reqDailyWeek
      (getDailyTotalsForPeriodCtrl serviceStub) rfl rfl
  · exact (C5_success_gated_write_fixed_ttl.1 true []
      reqDailyWeek (getDailyTotalsForPeriodCtrl serviceStub)
      (generateCacheKey reqDailyWeek) CACHE_TTL (stringifyJson weekPayload)
      (by decide)).2

/-- C6: with the cache store unreachable, every GET request still
produces exactly the controller's own response — same status, same
payload, the controller runs, the store is unchanged, and nothing is
written; the failure never surfaces to the caller. -/
theorem C6_fail_open (c : Cache) (req : Req) (h : Req → CtrlResult)
    (hm : req.method = "GET") :
    (runGet false c req h).status = (h req).status ∧
    (runGet false c req h).payload = (h req).payload ∧
    (runGet false c req h).handlerRan = true ∧
    (runGet false c req h).cache = c ∧
    (∀ k t v, CacheOp.write k t v ∈ (runGet false c req h).ops → False) := by
  rw [runGet_down c req h hm]
  exact ⟨rfl, rfl, rfl, rfl, fun k t v hmem => by simp at hmem⟩

theorem C6_fail_open_witness :
    (runGet false [] reqDailyWeek (getDailyTotalsForPeriodCtrl serviceStub)).payload
      = (getDailyTotalsForPeriodCtrl serviceStub reqDailyWeek).payload ∧
    (getDailyTotalsForPeriodCtrl serviceStub reqDailyWeek).payload.success = true := by
  constructor
  · exact (C6_fail_open [] reqDailyWeek (getDailyTotalsForPeriodCtrl serviceStub) rfl).2.1
  · decide

/-- C10: on a cache hit the stored serialized payload is parsed and
returned as the response with status 200, the controller (and hence the
aggregation) never runs, the only store operation is the single read,
and the store — entries and their TTLs — is unchanged. -/
theorem C10_cache_hit_frame (c : Cache) (req : Req) (h : Req → CtrlResult) (v : JsonStr)
    (hm : req.method = "GET") (hv : cacheGet c (generateCacheKey req) = some v) :
    (runGet true c req h).payload = parseJson v ∧
    (runGet true c req h).status = 200 ∧
    (runGet true c req h).handlerRan = false ∧
    (runGet true c req h).serviceCalled = false ∧
    (runGet true c req h).ops = [CacheOp.read (generateCacheKey req)] ∧
    (runGet true c req h).cache = c := by
  rw [runGet_hit h hm hv]
  exact ⟨rfl, rfl, rfl, rfl, rfl, rfl⟩

theorem C10_cache_hit_frame_witness :
    cacheGet warmCache (generateCacheKey reqDailyWeek) = some (stringifyJson weekPayload) ∧
    (runGet true warmCache reqDailyWeek (getDailyTotalsForPeriodCtrl serviceStub)).payload
      = weekPayload ∧
    (runGet true warmCache reqDailyWeek (getDailyTotalsForPeriodCtrl serviceStub)).cache
      = warmCache := by
  refine ⟨by decide, ?_, ?_⟩
  · exact (C10_cache_hit_frame warmCache reqDailyWeek
      (getDailyTotalsForPeriodCtrl serviceStub) (stringifyJson weekPayload)
      rfl (by decide)).1
  · exact (C10_cache_hit_frame warmCache reqDailyWeek
      (getDailyTotalsForPeriodCtrl serviceStub) (stringifyJson weekPayload)
      rfl (by decide)).2.2.2.2.2

theorem periodCtrl_invalid (service : PeriodService) (req : Req)
    (h : showOpt req.paramsPeriod ∉ periodList) :
    getDailyTotalsForPeriodCtrl service req
      = ⟨400, ⟨false, some "Period must be one of: week, month, year", none, ""⟩, false⟩ := by
  unfold getDailyTotalsForPeriodCtrl
  rw [if_neg h]

theorem rangeCtrl_invalid (parseDate : String → Option Int) (service : RangeService)
    (req : Req) (h : rangeInvalid parseDate req.query = true) :
    getDailyTotalsCtrl parseDate service req
        = ⟨400, ⟨false, some "startDate and endDate query parameters are required",
            none, ""⟩, false⟩
      ∨ getDailyTotalsCtrl parseDate service req
        = ⟨400, ⟨false, some "Invalid date format. Use YYYY-MM-DD", none, ""⟩, false⟩ := by
  unfold getDailyTotalsCtrl
  split
  next s e hs he =>
    split
    next sd ed hps hpe =>
      exfalso
      unfold rangeInvalid at h
      rw [hs, he] at h
      have h2 : ((parseDate s).isNone || (parseDate e).isNone) = true := h
      rw [hps, hpe] at h2
      simp at h2
    next => exact Or.inr rfl
  next => exact Or.inl rfl

theorem runGet_error_handler (ok : Bool) (c : Cache) (req : Req) (h : Req → CtrlResult)
    (hm : req.method = "GET") (hfail : (h req).payload.success = false)
    (hsc : (h req).serviceCalled = false) :
    (runGet ok c req h).serviceCalled = false ∧
    (∀ k t v, CacheOp.write k t v ∈ (runGet ok c req h).ops → False) ∧
    (runGet ok c req h).cache = c ∧
    ((runGet ok c req h).handlerRan = true →
      (runGet ok c req h).status = (h req).status ∧
      (runGet ok c req h).payload.success = false) := by
  cases ok with
  | false =>
    rw [runGet_down c req h hm]
    exact ⟨hsc, fun k t v hmem => by simp at hmem, rfl, fun _ => ⟨rfl, hfail⟩⟩
  | true =>
    cases hv : cacheGet c (generateCacheKey req) with
    | some w =>
      rw [runGet_hit h hm hv]
      exact ⟨rfl, fun k t v hmem => by simp at hmem, rfl, fun hr => by simp at hr⟩
    | none =>
      rw [runGet_miss_fail h hm hv hfail]
      exact ⟨hsc, fun k t v hmem => by simp at hmem, rfl, fun _ => ⟨rfl, hfail⟩⟩

/-- C2 counterexample: for a GET request whose period is invalid
(`foo`), the cache middleware still performs a cache read before the
controller's validation runs — the operation trace of the request is a
read of the derived key, refuting "no cache read is performed". -/
theorem C2_cache_read_before_validation :
    showOpt reqDailyFoo.paramsPeriod ∉ periodList ∧
    (runGet true [] reqDailyFoo (getDailyTotalsForPeriodCtrl serviceStub)).ops
      = [CacheOp.read "cache:/users/:userId/daily-totals/:period:u1"] := by
  decide

/-- C2 (amended): for every GET request failing validation — an invalid
period name on the period endpoint, or a missing/empty or unparsable
`startDate`/`endDate` on the range endpoint — the aggregation service
is never invoked, no cache write is performed, the store is unchanged,
and whenever the controller runs its error response has status 400 with
`success` false (so it is never stored); a cache read, however, does
occur before validation, since the cache middleware runs first. -/
theorem C2_validation_before_aggregation :
    (∀ (ok : Bool) (c : Cache) (service : PeriodService) (req : Req),
      req.method = "GET" → showOpt req.paramsPeriod ∉ periodList →
      ((runGet ok c req (getDailyTotalsForPeriodCtrl service)).serviceCalled = false ∧
        (∀ k t v, CacheOp.write k t v
          ∈ (runGet ok c req (getDailyTotalsForPeriodCtrl service)).ops → False) ∧
        (runGet ok c req (getDailyTotalsForPeriodCtrl service)).cache = c ∧
        ((runGet ok c req (getDailyTotalsForPeriodCtrl service)).handlerRan = true →
          (runGet ok c req (getDailyTotalsForPeriodCtrl service)).status = 400 ∧
          (runGet ok c req (getDailyTotalsForPeriodCtrl service)).payload.success = false))) ∧
    (∀ (ok : Bool) (c : Cache) (parseDate : String → Option Int)
        (service : RangeService) (req : Req),
      req.method = "GET" → rangeInvalid parseDate req.query = true →
      ((runGet ok c req (getDailyTotalsCtrl parseDate service)).serviceCalled = false ∧
        (∀ k t v, CacheOp.write k t v
          ∈ (runGet ok c req (getDailyTotalsCtrl parseDate service)).ops → False) ∧
        (runGet ok c req (getDailyTotalsCtrl parseDate service)).cache = c ∧
        ((runGet ok c req (getDailyTotalsCtrl parseDate service)).handlerRan = true →
          (runGet ok c req (getDailyTotalsCtrl parseDate service)).status = 400 ∧
          (runGet ok c req (getDailyTotalsCtrl parseDate service)).payload.success
            = false))) := by
  constructor
  · intro ok c service req hm hp
    have hctrl := periodCtrl_invalid service req hp
    have hbase := runGet_error_handler ok c req (getDailyTotalsForPeriodCtrl service) hm
      (by rw [hctrl]) (by rw [hctrl])
    refine ⟨hbase.1, hbase.2.1, hbase.2.2.1, fun hr => ⟨?_, (hbase.2.2.2 hr).2⟩⟩
    have h4 := (hbase.2.2.2 hr).1
    rw [hctrl] at h4
    exact h4
  · intro ok c parseDate service req hm hq
    rcases rangeCtrl_invalid parseDate service req hq with hc | hc
    · have hbase := runGet_error_handler ok c req (getDailyTotalsCtrl parseDate service) hm
        (by rw [hc]) (by rw [hc])
      refine ⟨hbase.1, hbase.2.1, hbase.2.2.1, fun hr => ⟨?_, (hbase.2.2.2 hr).2⟩⟩
      have h4 := (hbase.2.2.2 hr).1
      rw [hc] at h4
      exact h4
    · have hbase := runGet_error_handler ok c req (getDailyTotalsCtrl parseDate service) hm
        (by rw [hc]) (by rw [hc])
      refine ⟨hbase.1, hbase.2.1, hbase.2.2.1, fun hr => ⟨?_, (hbase.2.2.2 hr).2⟩⟩
      have h4 := (hbase.2.2.2 hr).1
      rw [hc] at h4
      exact h4

theorem C2_validation_before_aggregation_witness :
    (runGet true [] reqDailyFoo (getDailyTotalsForPeriodCtrl serviceStub)).serviceCalled
      = false ∧
    (runGet true [] ⟨"GET", "/users/:userId/daily-totals", some "u1", none, []⟩
        (getDailyTotalsCtrl (fun _ => none) (fun _ _ _ _ => weekPayload))).cache = [] := by
  constructor
  · exact (C2_validation_before_aggregation.1 true [] serviceStub reqDailyFoo
      rfl (by decide)).1
  · exact (C2_validation_before_aggregation.2 true [] (fun _ => none)
      (fun _ _ _ _ => weekPayload) ⟨"GET", "/users/:userId/daily-totals", some "u1", none, []⟩
      rfl (by decide)).2.2.1

/-- C9: with a warm cache, `GET /users/u1/daily-totals/foo` — an
invalid period — is answered 200 with the payload cached by the earlier
`week` request (their derived keys coincide), not the claimed 400
validation error; only against a cold cache does the controller's
validation produce the 400 `success:false` response without invoking
the aggregation service. -/
theorem C9_invalid_period_served_from_cache :
    showOpt reqDailyFoo.paramsPeriod ∉ periodList ∧
    (runGet true warmCache reqDailyFoo (getDailyTotalsForPeriodCtrl serviceStub)).status
      = 200 ∧
    (runGet true warmCache reqDailyFoo (getDailyTotalsForPeriodCtrl serviceStub)).payload
      = weekPayload ∧
    (runGet true warmCache reqDailyFoo (getDailyTotalsForPeriodCtrl serviceStub)).handlerRan
      = false ∧
    (runGet true [] reqDailyFoo (getDailyTotalsForPeriodCtrl serviceStub)).status = 400 ∧
    (runGet true [] reqDailyFoo (getDailyTotalsForPeriodCtrl serviceStub)).payload.success
      = false ∧
    (runGet true [] reqDailyFoo (getDailyTotalsForPeriodCtrl serviceStub)).serviceCalled
      = false := by
  decide

/-- C7: for every range with `startDay ≤ endDay` the aggregation
produces exactly `endDay − startDay + 1` buckets whose dates are the
consecutive days of the range in strictly ascending order (no
duplicates, no gaps, all inside the range), and a day no session
overlaps gets `totalMinutes = 0` and `sessionCount = 0`. -/
theorem C7_daily_buckets (sessions : List Session) (now sd ed : Nat) (hle : sd ≤ ed) :
    (aggregate sessions now sd ed).length = ed - sd + 1 ∧
    (aggregate sessions now sd ed).map DailyBucket.date = List.range' sd (ed - sd + 1) ∧
    List.Pairwise (fun a b => a.date < b.date) (aggregate sessions now sd ed) ∧
    (∀ b ∈ aggregate sessions now sd ed, sd ≤ b.date ∧ b.date ≤ ed) ∧
    (∀ b ∈ aggregate sessions now sd ed,
      (∀ s ∈ sessions, overlapsDay now b.date s = false) →
      b.totalMinutes = 0 ∧ b.sessionCount = 0) := by
  refine ⟨?_, ?_, ?_, ?_, ?_⟩
  · simp [aggregate]
  · rw [aggregate, List.map_map, List.range'_eq_map_range]
    rfl
  · rw [aggregate]
    exact List.Pairwise.map _ (fun a b hab => Nat.add_lt_add_left hab sd)
      (List.pairwise_lt_range _)
  · intro b hb
    simp only [aggregate, List.mem_map, List.mem_range] at hb
    obtain ⟨i, hi, rfl⟩ := hb
    simp only [bucketFor]
    omega
  · intro b hb hnone
    simp only [aggregate, List.mem_map, List.mem_range] at hb
    obtain ⟨i, hi, rfl⟩ := hb
    have hf : sessions.filter (overlapsDay now (sd + i)) = [] :=
      List.filter_eq_nil_iff.mpr (fun s hs => by
        have h0 : overlapsDay now (sd + i) s = false := hnone s hs
        simp [h0])
    constructor
    · show ((sessions.filter (overlapsDay now (sd + i))).map
        (overlapMinutes now (sd + i))).sum = 0
      rw [hf]
      rfl
    · show (sessions.filter (overlapsDay now (sd + i))).length = 0
      rw [hf]
      rfl

theorem C7_daily_buckets_witness :
    (aggregate [⟨480, some 960⟩] 0 3 5).length = 3 ∧
    (aggregate [⟨480, some 960⟩] 0 3 5).map DailyBucket.date = [3, 4, 5] := by
  constructor
  · exact (C7_daily_buckets [⟨480, some 960⟩] 0 3 5 (by decide)).1
  · have h := (C7_daily_buckets [⟨480, some 960⟩] 0 3 5 (by decide)).2.1
    rw [h]
    decide

/-- C8: period resolution maps `week` to `[today − 6, today]`, `month`
to `[today − 29, today]` and `year` to `[today − 364, today]`, all
inclusive; on the calendar, resolving `week` at 2025-09-10 gives
[2025-09-04, 2025-09-10] and resolving `month` gives
[2025-08-12, 2025-09-10]. -/
theorem C8_period_resolution :
    (∀ t : Int,
      resolvePeriod "week" t = Except.ok (t - 6, t) ∧
      resolvePeriod "month" t = Except.ok (t - 29, t) ∧
      resolvePeriod "year" t = Except.ok (t - 364, t)) ∧
    resolvePeriod "week" (daysFromCivil 2025 9 10)
      = Except.ok (daysFromCivil 2025 9 4, daysFromCivil 2025 9 10) ∧
    resolvePeriod "month" (daysFromCivil 2025 9 10)
      = Except.ok (daysFromCivil 2025 8 12, daysFromCivil 2025 9 10) := by
  refine ⟨fun t => ⟨?_, ?_, ?_⟩, rfl, rfl⟩
  · rw [resolvePeriod, if_pos rfl]
  · rw [resolvePeriod, if_neg (by decide), if_pos rfl]
  · rw [resolvePeriod, if_neg (by decide), if_neg (by decide), if_pos rfl]

theorem C4_invalidation_coordinator_witness :
    (runMutation cacheTwoUsers reqCreateTracker payloadCreatedU1).2
      = truthy payloadCreatedU1.dataUserId ∧
    runMutation cacheTwoUsers ⟨"GET", "/x", none, none, []⟩ payloadCreatedU1
      = (cacheTwoUsers, none) := by
  constructor
  · exact ((C4_invalidation_coordinator cacheTwoUsers reqCreateTracker
      payloadCreatedU1).2.1 (Or.inl rfl) rfl).2.2 rfl rfl
  · exact (C4_invalidation_coordinator cacheTwoUsers ⟨"GET", "/x", none, none, []⟩
      payloadCreatedU1).1 (Or.inl (by decide))

end FocusForge
